import Mathlib

/-!
Verification of the albumoftheyear-api content-acquisition pipeline.

Shallow embedding of the Python sources:
  * `app/utils/metrics.py`  — `Metrics`, `MetricsCollector`
  * `app/utils/cache.py`    — `LRUCache`
  * `app/utils/scraper.py`  — extraction functions and acquisition drivers
  * `app/main.py`           — the three API handlers and their metrics wiring

Conventions of the embedding:
  * Python `float` durations and scores are modelled as exact rationals `ℚ`.
  * Python `datetime.now()` instants are modelled as `Nat` parameters threaded
    explicitly into the operations that read the clock.
  * A raised exception of fallible code is an `Option`/`Except` `none`/`error`.
  * BeautifulSoup documents are modelled structurally: a page record stores,
    for each CSS selector the code queries, the `select_one` result as an
    `Option String` (the element's already-extracted `.text`, or attribute)
    and each `select` result as a list of row records.
-/

namespace AOTY

/-! ## `app/utils/metrics.py` -/

/-- The `Metrics` dataclass.  `last_reset` is a `datetime` in Python; the
dataclass default `datetime.now()` is evaluated once at class-definition time,
so every `Metrics()` carries the same constant; we model instants as `Nat`. -/
structure Metrics where
  total_requests : Nat := 0
  cache_hits : Nat := 0
  cache_misses : Nat := 0
  errors : Nat := 0
  avg_response_time : ℚ := 0
  last_reset : Nat := 0
  deriving DecidableEq, Repr

/-- `Metrics()` with all defaults, the state of a fresh collector and the
state installed by `MetricsCollector.reset`. -/
def Metrics.init : Metrics := {}

/-- `MetricsCollector.record_request(cache_hit)`: bump `total_requests` and
one of `cache_hits` / `cache_misses`. -/
def record_request (m : Metrics) (cache_hit : Bool) : Metrics :=
  if cache_hit then
    { m with total_requests := m.total_requests + 1, cache_hits := m.cache_hits + 1 }
  else
    { m with total_requests := m.total_requests + 1, cache_misses := m.cache_misses + 1 }

/-- `MetricsCollector.record_error()`. -/
def record_error (m : Metrics) : Metrics :=
  { m with errors := m.errors + 1 }

/-- `MetricsCollector.record_response_time(duration)`:
`avg = (avg * (total_requests - 1) + duration) / total_requests`.
When `total_requests = 0` the Python division raises `ZeroDivisionError`,
modelled as `none`. -/
def record_response_time (m : Metrics) (duration : ℚ) : Option Metrics :=
  if m.total_requests = 0 then none
  else some { m with
    avg_response_time :=
      (m.avg_response_time * ((m.total_requests : ℚ) - 1) + duration)
        / (m.total_requests : ℚ) }

/-! ### Python object semantics for the collector (needed for aliasing facts)

`MetricsCollector._metrics` is a reference into the Python heap;
`get_metrics` returns that reference (`return self._metrics`), and the
`record_*` methods mutate the referenced object in place, while `reset`
rebinds `self._metrics` to a freshly allocated object.  We model the heap of
`Metrics` objects as a function from allocation indices, the collector's
field as the index `cur`, and a snapshot returned by `get_metrics` as an
index. -/

structure CollectorHeap where
  mem : Nat → Metrics
  cur : Nat
  next : Nat

/-- The heap after `MetricsCollector.__init__`: one fresh `Metrics()` object. -/
def CollectorHeap.init : CollectorHeap :=
  { mem := fun _ => Metrics.init, cur := 0, next := 1 }

/-- Dereference a snapshot: read the fields of the object it points to. -/
def CollectorHeap.deref (h : CollectorHeap) (r : Nat) : Metrics := h.mem r

/-- `get_metrics` returns `self._metrics` itself: the reference, not a copy. -/
def get_metrics (h : CollectorHeap) : Nat := h.cur

/-- In-place mutation of the object `self._metrics` points to. -/
def CollectorHeap.mutate (h : CollectorHeap) (f : Metrics → Metrics) : CollectorHeap :=
  { h with mem := fun i => if i = h.cur then f (h.mem i) else h.mem i }

def record_request_h (h : CollectorHeap) (cache_hit : Bool) : CollectorHeap :=
  h.mutate (record_request · cache_hit)

def record_error_h (h : CollectorHeap) : CollectorHeap :=
  h.mutate record_error

/-- `record_response_time` on the heap; `none` models the uncaught
`ZeroDivisionError`. -/
def record_response_time_h (h : CollectorHeap) (d : ℚ) : Option CollectorHeap :=
  (record_response_time (h.mem h.cur) d).map fun m =>
    { h with mem := fun i => if i = h.cur then m else h.mem i }

/-- `reset`: `self._metrics = Metrics()` — allocate a fresh object and rebind
the collector's reference; the old object is unchanged. -/
def reset_h (h : CollectorHeap) : CollectorHeap :=
  { mem := fun i => if i = h.next then Metrics.init else h.mem i,
    cur := h.next, next := h.next + 1 }

/-! ## `app/utils/cache.py` — `LRUCache`

`self._cache` is an `OrderedDict` (insertion/recency order, first key =
least recently used) and `self._expiry` a dict keyed identically; since the
two are updated in lockstep we merge them into one ordered association list
of `(key, value, expiry)` triples, head = least recently used. -/

structure LRUCache (V : Type) where
  entries : List (String × V × Nat)
  max_size : Nat := 5000
  ttl : Nat

variable {V : Type}

/-- The keys currently stored, in recency order (head = LRU). -/
def LRUCache.keys (c : LRUCache V) : List String := c.entries.map (·.1)

/-- `key in self._cache` / `self._cache[key]` lookup. -/
def LRUCache.lookup (c : LRUCache V) (key : String) : Option (V × Nat) :=
  (c.entries.find? (·.1 = key)).map (·.2)

/-- `LRUCache._remove(key)`: drop the entry (and its expiry) for `key`. -/
def LRUCache.remove (c : LRUCache V) (key : String) : LRUCache V :=
  { c with entries := c.entries.filter (fun e => ¬ e.1 = key) }

/-- `LRUCache.get(key)` at clock instant `now`: absent → `None`; expired
(`now >= expiry`) → remove and `None`; otherwise pop and re-append (promote
to most recently used, keeping the stored expiry) and return the value.
Returns the result together with the updated cache. -/
def LRUCache.get (c : LRUCache V) (now : Nat) (key : String) :
    Option V × LRUCache V :=
  match c.lookup key with
  | none => (none, c)
  | some (v, exp) =>
    if exp ≤ now then
      (none, c.remove key)
    else
      (some v, { c with
        entries := c.entries.filter (fun e => ¬ e.1 = key) ++ [(key, v, exp)] })

/-- `LRUCache.set(key, value)` at clock instant `now`: pop an existing
binding, else when at capacity evict the least-recently-used entry
(`next(iter(self._cache))`, the head); then append with expiry `now + ttl`.
`next(iter(...))` on an empty dict raises `StopIteration`, modelled as
`none`. -/
def LRUCache.set (c : LRUCache V) (now : Nat) (key : String) (v : V) :
    Option (LRUCache V) :=
  if (c.lookup key).isSome then
    some { c with entries :=
      c.entries.filter (fun e => ¬ e.1 = key) ++ [(key, v, now + c.ttl)] }
  else if c.max_size ≤ c.entries.length then
    match c.entries with
    | [] => none
    | _ :: rest =>
      some { c with entries := rest ++ [(key, v, now + c.ttl)] }
  else
    some { c with entries := c.entries ++ [(key, v, now + c.ttl)] }

/-- A sequence of `get` calls (key, instant), discarding the returned
values: the cache states a caller observes between other operations. -/
def LRUCache.applyGets (c : LRUCache V) : List (String × Nat) → LRUCache V
  | [] => c
  | (k, t) :: gs => ((c.get t k).2).applyGets gs

/-! ## Python numeric-string conversions

`int(s)` / `float(s)` on the strings the scraper feeds them: surrounding
whitespace stripped, an optional single sign, then decimal digits (for
`float`, an optional fractional part).  A failing conversion raises
`ValueError`, modelled as `none`.  (Unicode digits and `_` digit grouping,
which CPython also accepts, do not occur in the scraped texts and are not
modelled.) -/

/-- Python `str.strip()`: drop leading and trailing whitespace.  (Defined
over the character list so it computes by structural recursion.) -/
def pyStrip (s : String) : String :=
  String.mk
    (((s.data.dropWhile Char.isWhitespace).reverse.dropWhile
      Char.isWhitespace).reverse)

/-- Replace non-overlapping occurrences of `p` left to right, as Python
`str.replace(p, r)`; `fuel` (instantiated with the string length, enough to
consume every character) keeps the recursion structural. -/
def replaceFuel (p r : List Char) : Nat → List Char → List Char
  | 0, s => s
  | _ + 1, [] => []
  | fuel + 1, c :: cs =>
    if p ≠ [] ∧ p.isPrefixOf (c :: cs) then
      r ++ replaceFuel p r fuel ((c :: cs).drop p.length)
    else
      c :: replaceFuel p r fuel cs

/-- Python `s.replace(p, r)` for the nonempty patterns the code uses. -/
def pyReplace (s p r : String) : String :=
  String.mk (replaceFuel p.data r.data s.data.length s.data)

/-- Split a character list on a separator (Python `str.split(sep)`). -/
def splitChar (sep : Char) : List Char → List (List Char)
  | [] => [[]]
  | c :: cs =>
    match splitChar sep cs with
    | [] => [[c]]
    | h :: t => if c = sep then [] :: h :: t else (c :: h) :: t

/-- Value of a nonempty all-digit character list. -/
def digitsVal (cs : List Char) : Option Nat :=
  if cs ≠ [] ∧ cs.all Char.isDigit then
    some (cs.foldl (fun n c => 10 * n + (c.toNat - 48)) 0)
  else none

/-- Python `int(s)`. -/
def pyInt (s : String) : Option Int :=
  match (pyStrip s).data with
  | '-' :: rest => (digitsVal rest).map (fun n => -(n : Int))
  | '+' :: rest => (digitsVal rest).map (fun n => (n : Int))
  | cs => (digitsVal cs).map (fun n => (n : Int))

/-- Python `str.isdigit()` (ASCII): nonempty and all digits. -/
def pyIsdigit (s : String) : Bool :=
  decide (s.data ≠ []) && s.data.all Char.isDigit

/-- Python `float(s)` restricted to plain decimal notation. -/
def pyFloat (s : String) : Option ℚ :=
  let t := pyStrip s
  let core := fun (u : String) =>
    match u.splitOn "." with
    | [a] => (digitsVal a.data).map (fun n => (n : ℚ))
    | [a, b] =>
      if (a.data ≠ [] ∨ b.data ≠ []) ∧ a.data.all Char.isDigit
          ∧ b.data.all Char.isDigit then
        some ((a.data.foldl (fun n c => 10 * n + (c.toNat - 48)) 0 : ℚ)
          + (b.data.foldl (fun n c => 10 * n + (c.toNat - 48)) 0 : ℚ)
            / ((10 : ℚ) ^ b.length))
      else none
    | _ => none
  match t.data with
  | '-' :: rest => (core (String.mk rest)).map (fun q => -q)
  | '+' :: rest => core (String.mk rest)
  | _ => core t

/-- `parse_number(text)` from `scraper.py`: strip commas, then `int(...)`.
(The `isinstance(text, int)` fast path takes `int` inputs through unchanged;
every call site passes a string, so we model the string case.) -/
def parse_number (text : String) : Option Int :=
  pyInt (pyReplace text "," "")

/-! ## `app/models.py` — the pydantic value records -/

structure Track where
  number : Int
  title : String
  length : String
  rating : Option Int := none
  featured_artists : List String := []
  deriving DecidableEq, Repr

structure CriticReview where
  author : String
  publication : String
  rating : Int
  text : String
  deriving DecidableEq, Repr

structure AlbumUserReview where
  author : String
  rating : Option Int := none
  text : String
  likes : Int := 0
  deriving DecidableEq, Repr

structure ProfileUserReview where
  album_title : String
  album_artist : String
  rating : Int
  review_text : String
  likes : Int
  timestamp : String
  deriving DecidableEq, Repr

structure BuyLink where
  platform : String
  url : String
  deriving DecidableEq, Repr

structure Album where
  title : String
  artist : String
  user_score : Option ℚ
  num_ratings : Int
  tracks : List Track
  critic_reviews : List CriticReview
  popular_reviews : List AlbumUserReview
  is_must_hear : Bool
  buy_links : List BuyLink := []
  deriving DecidableEq, Repr

/-- Python dicts (`stats`, `rating_distribution`, `social_links`) as ordered
association lists; `d[k] = v` replaces in place or appends. -/
def dictInsert {β : Type} (d : List (String × β)) (k : String) (v : β) :
    List (String × β) :=
  if d.any (·.1 = k) then d.map (fun p => if p.1 = k then (k, v) else p)
  else d ++ [(k, v)]

structure UserProfile where
  username : String
  location : Option String := none
  about : Option String := none
  member_since : Option String := none
  stats : List (String × Int)
  favorite_albums : List String
  recent_reviews : List ProfileUserReview
  social_links : List (String × String)
  rating_distribution : List (String × Int)
  deriving DecidableEq, Repr

/-! ## `app/utils/scraper.py` — album search and album-page extraction

Page records store the result of each `select_one` the code performs as an
`Option String` (the element's `.text`, or for attribute access an inner
`Option` for the attribute), and each `select` as a list of row records.
Fetch outcomes (`scraper.get(...).text` plus soup construction) are
`Except String page` parameters: `error` is a raised transport exception.
Error `detail` strings abbreviate the interpolated `str(e)` texts. -/

def BASE_URL : String := "https://www.albumoftheyear.org"

/-- An `.albumBlock` as read by `get_album_url` / `get_similar_albums`:
the `.image a` element (with its `href` attribute — missing attribute
raises `KeyError`), and the `.artistTitle` / `.albumTitle` texts (a missing
element raises `AttributeError` on `.text`). -/
structure SearchBlock where
  imageLink : Option (Option String)
  artistTitle : Option String
  albumTitle : Option String
  deriving DecidableEq, Repr

/-- A search page: `select_one(".albumBlock")`. -/
structure SearchPage where
  albumBlock : Option SearchBlock
  deriving DecidableEq, Repr

/-- `get_album_url(artist, album)` given the fetch outcome of the search
page.  Inside the `try`, a missing `href`/`.artistTitle`/`.albumTitle` on a
present block raises and is converted to an HTTP 503; no block or no image
link falls through to `return None`. -/
def get_album_url (fetched : Except String SearchPage) :
    Except (Nat × String) (Option (String × String × String)) :=
  match fetched with
  | .error e => .error (503, "Error accessing album site: " ++ e)
  | .ok page =>
    match page.albumBlock with
    | none => .ok none
    | some blk =>
      match blk.imageLink with
      | none => .ok none
      | some href? =>
        match href?, blk.artistTitle, blk.albumTitle with
        | some href, some a, some t =>
          .ok (some (BASE_URL ++ href, pyStrip a, pyStrip t))
        | _, _, _ => .error (503, "Error accessing album site: e")

/-- A `.trackListTable tr` row: `.trackNumber`, `.trackTitle a`, `.length`,
`.trackRating span` texts and the `.featuredArtists` link texts. -/
structure TrackRow where
  trackNumber : Option String
  trackTitle : Option String
  length : Option String
  trackRating : Option String
  featuredArtists : Option (List String)
  deriving DecidableEq, Repr

/-- One iteration of the `parse_tracks` loop body; `none` is a raised
`AttributeError` (missing element) or `ValueError` (failing `int`). -/
def trackOfRow (row : TrackRow) : Option Track := do
  let numberText ← row.trackNumber
  let number ← pyInt numberText
  let title ← row.trackTitle
  let length := row.length.getD ""
  let rating ← match row.trackRating with
    | none => pure (none : Option Int)
    | some rs => (pyInt rs).map some
  let featured_artists := row.featuredArtists.getD []
  pure { number, title, length, rating, featured_artists }

/-- `parse_tracks`: the loop raises at the first malformed row, aborting the
whole extraction (there is no per-row exception handler). -/
def parse_tracks : List TrackRow → Option (List Track)
  | [] => some []
  | row :: rows =>
    match trackOfRow row with
    | none => none
    | some t => (parse_tracks rows).map (t :: ·)

/-- A `#critics .albumReviewRow` row: `.author a`, `.publication a`,
`.albumReviewRating`, `.albumReviewText` texts. -/
structure CriticRow where
  authorLink : Option String
  publicationLink : Option String
  ratingText : Option String
  reviewText : Option String
  deriving DecidableEq, Repr

/-- One iteration of the `parse_critic_reviews` loop body.  A missing
author link defaults to `"Unknown"`; a missing publication link, rating or
text element raises `AttributeError` (`none`).  When `rating_text.isdigit()`
the `int` conversion cannot fail, hence the `getD 0`. -/
def criticOfRow (review : CriticRow) : Option CriticReview := do
  let author := review.authorLink.getD "Unknown"
  let publication ← review.publicationLink
  let rating_text ← review.ratingText
  let rating := if pyIsdigit rating_text then (pyInt rating_text).getD 0 else 0
  let text ← review.reviewText
  pure { author, publication, rating, text := pyStrip text }

/-- `parse_critic_reviews`: like `parse_tracks`, no per-row handler — the
first malformed row aborts the whole extraction. -/
def parse_critic_reviews : List CriticRow → Option (List CriticReview)
  | [] => some []
  | row :: rows =>
    match criticOfRow row with
    | none => none
    | some r => (parse_critic_reviews rows).map (r :: ·)

/-- A `#users .albumReviewRow` row: `.userReviewName a`, `.rating`,
`.albumReviewText`, `.review_likes a` texts. -/
structure UserRow where
  userReviewName : Option String
  rating : Option String
  reviewText : Option String
  likes : Option String
  deriving DecidableEq, Repr

/-- The `try` body of one `parse_user_reviews` iteration; every
`AttributeError` / `ValueError` the body can raise yields `none`. -/
def userReviewOfRow (review : UserRow) : Option AlbumUserReview := do
  let author ← review.userReviewName
  let rating ← match review.rating with
    | none => pure (none : Option Int)
    | some rs => if rs = "NR" then pure none else (pyInt rs).map some
  let text ← review.reviewText
  let likes ← match review.likes with
    | none => pure (0 : Int)
    | some ls => pyInt ls
  pure { author, rating, text := pyStrip text, likes }

/-- `parse_user_reviews`: each row's `try` body runs under
`except (AttributeError, ValueError): continue`, so a malformed row is
skipped and the loop continues. -/
def parse_user_reviews (rows : List UserRow) : List AlbumUserReview :=
  rows.filterMap userReviewOfRow

/-- A `.buyButtons a` link; `link.get("title", "")` / `link.get("href", "")`
default to `""` and never raise. -/
structure BuyLinkTag where
  title : String
  href : String
  deriving DecidableEq, Repr

/-- `parse_buy_links`: keep only pairs with both fields nonempty. -/
def parse_buy_links (buyButtons : Option (List BuyLinkTag)) : List BuyLink :=
  match buyButtons with
  | none => []
  | some links =>
    links.filterMap fun l =>
      let platform := pyStrip l.title
      let url := pyStrip l.href
      if platform ≠ "" ∧ url ≠ "" then some { platform, url } else none

/-- An album page as consumed by `scrape_album`: `.albumUserScore a` (with
its `title` attribute; `get("title", 0)` defaults to the int `0`, so a
present element without the attribute yields `float(0) = 0.0`),
`.numReviews strong`, the row lists, `.buyButtons` and the presence of
`.mustHearButton`. -/
structure AlbumPage where
  scoreElem : Option (Option String)
  numReviewsText : Option String
  trackRows : List TrackRow
  criticRows : List CriticRow
  userRows : List UserRow
  buyButtons : Option (List BuyLinkTag)
  mustHearButton : Bool
  deriving DecidableEq, Repr

/-- `scrape_album(url, artist, title)` given the fetch outcome of the album
page.  The four extraction tasks run concurrently via `asyncio.gather` over
the same parsed soup; being pure reads, their parallel execution equals
sequential evaluation, and any exception of any task propagates out of
`gather` into the blanket `except`, surfacing as HTTP 503. -/
def scrape_album (fetched : Except String AlbumPage) (artist title : String) :
    Except (Nat × String) Album :=
  match fetched with
  | .error e => .error (503, "Error accessing album site: " ++ e)
  | .ok page =>
    let user_score : Option ℚ :=
      match page.scoreElem with
      | none => none
      | some none => some 0
      | some (some s) => pyFloat s
    let num_ratings : Int :=
      match page.numReviewsText with
      | none => 0
      | some s => (pyInt s).getD 0
    match parse_tracks page.trackRows with
    | none => .error (503, "Error accessing album site: e")
    | some tracks =>
      match parse_critic_reviews page.criticRows with
      | none => .error (503, "Error accessing album site: e")
      | some critic_reviews =>
        .ok { title, artist, user_score, num_ratings, tracks, critic_reviews,
              popular_reviews := parse_user_reviews page.userRows,
              is_must_hear := page.mustHearButton,
              buy_links := parse_buy_links page.buyButtons }

/-- One iteration of the `get_similar_albums` fan-out loop: a block without
an image link is skipped by the guard; a missing attribute/text or a
failing recursive `scrape_album` raises inside the per-item `try` and is
skipped by `except Exception: continue`. -/
def acquireBlock (fetchAlbum : String → Except String AlbumPage)
    (blk : SearchBlock) : Option Album :=
  match blk.imageLink with
  | none => none
  | some href? =>
    match href?, blk.artistTitle, blk.albumTitle with
    | some href, some a, some t =>
      match scrape_album (fetchAlbum (BASE_URL ++ href)) (pyStrip a) (pyStrip t) with
      | .ok album => some album
      | .error _ => none
    | _, _, _ => none

/-- `get_similar_albums(url)` given the fetch outcome of the `similar/`
listing page (a `select(".albumBlock")` list) and the fetcher used by the
recursive per-block `scrape_album` calls.  Only a failure of the listing
fetch itself escapes to the outer `except` and surfaces as HTTP 503. -/
def get_similar_albums (fetchAlbum : String → Except String AlbumPage)
    (fetched : Except String (List SearchBlock)) :
    Except (Nat × String) (List Album) :=
  match fetched with
  | .error e => .error (503, "Error accessing similar albums page: " ++ e)
  | .ok blocks => .ok (blocks.filterMap (acquireBlock fetchAlbum))

/-! ## `app/utils/scraper.py` — user-profile extraction -/

/-- A `.dist .distRow` row: `.distLabel` / `.distCount` texts. -/
structure DistRow where
  label : Option String
  count : Option String
  deriving DecidableEq, Repr

/-- The `extract_rating_distribution` loop with the dict built so far:
rows with both elements contribute `dist[rating_range] = parse_number(...)`.
`parse_number` has no handler here, so a failing conversion raises
`ValueError` out of the extractor (`none`). -/
def distLoop (dist : List (String × Int)) :
    List DistRow → Option (List (String × Int))
  | [] => some dist
  | row :: rows =>
    match row.label, row.count with
    | some l, some c =>
      match parse_number (pyStrip c) with
      | none => none
      | some n => distLoop (dictInsert dist (pyStrip l) n) rows
    | _, _ => distLoop dist rows

/-- `extract_rating_distribution`, starting from the empty dict. -/
def extract_rating_distribution (rows : List DistRow) :
    Option (List (String × Int)) :=
  distLoop [] rows

/-- An `.albumReviewRow` on a profile page: `.albumTitle`, `.artistTitle`,
`.rating`, `.albumReviewText`, `.review_likes` texts and the
`.actionContainer[title]` text. -/
structure ReviewTag where
  albumTitle : Option String
  artistTitle : Option String
  rating : Option String
  reviewText : Option String
  likes : Option String
  timestamp : Option String
  deriving DecidableEq, Repr

/-- `extract_review`: requires the first four elements (`if all([...])`);
`parse_number` failures raise `ValueError`, caught by the surrounding
`except (AttributeError, ValueError): return None`. -/
def extract_review (review : ReviewTag) : Option ProfileUserReview := do
  let album_title ← review.albumTitle
  let album_artist ← review.artistTitle
  let ratingText ← review.rating
  let review_text ← review.reviewText
  let rating ← parse_number (pyStrip ratingText)
  let likes ← match review.likes with
    | none => pure (0 : Int)
    | some ls => parse_number (pyStrip ls)
  pure { album_title := pyStrip album_title, album_artist := pyStrip album_artist,
         rating, review_text := pyStrip review_text, likes,
         timestamp := (review.timestamp.map pyStrip).getD "" }

/-- A `.profileLink` block: the classes of `.logo i` and the href of its
`a` element.  `none` covers both a missing element (skipped by the `if`
guard) and a missing `class`/`href` attribute (the raised
`KeyError` is caught and the link skipped) — observably identical. -/
structure SocialLinkTag where
  iconClasses : Option (List String)
  urlHref : Option String
  deriving DecidableEq, Repr

/-- `extract_social_links`: `platform = icon["class"][1].replace("fa-", "")`;
fewer than two classes raises `IndexError`, caught → link skipped. -/
def extract_social_links (links : List SocialLinkTag) : List (String × String) :=
  links.foldl (fun socials link =>
    match link.iconClasses, link.urlHref with
    | some classes, some href =>
      match classes[1]? with
      | some c => dictInsert socials (pyReplace c "fa-" "") href
      | none => socials
    | _, _ => socials) []

/-- One `extract_stats` bucket:
`parse_number(stat.text.strip()) if stat else 0` — a missing `.profileStat`
element contributes `0`, a present one is parsed (`ValueError` = `none`). -/
def statVal (c : Option String) : Option Int :=
  match c with
  | none => some 0
  | some s => parse_number (pyStrip s)

/-- `extract_stats`: with at least four `.profileStatContainer` blocks, fill
the four fixed keys from the first four containers (`0` for a container
without a `.profileStat` element, a failing `parse_number` raising out of
the extractor); with fewer than four containers the loop never runs and the
dict stays empty. -/
def extract_stats (statContainers : List (Option String)) :
    Option (List (String × Int)) :=
  if 4 ≤ statContainers.length then
    match statContainers with
    | c0 :: c1 :: c2 :: c3 :: _ => do
      let v0 ← statVal c0
      let v1 ← statVal c1
      let v2 ← statVal c2
      let v3 ← statVal c3
      pure [("ratings", v0), ("reviews", v1), ("lists", v2), ("followers", v3)]
    | _ => none
  else some []

/-- A user-profile page as consumed by `get_user_profile` and its helper
extractors: presence of `.profileHeadLeft`, the `.aboutUser` /
`.profileLocation` texts, the `.rightBox div` texts, the distribution rows,
the `.albumReviewRow` list, the `.profileLink` list, for each
`.profileStatContainer` the optional `.profileStat` text, and for each
`#favAlbumsBlock .albumBlock` the optional `.albumTitle` text. -/
structure ProfilePage where
  profileHead : Bool
  aboutText : Option String
  locationText : Option String
  rightBoxDivs : List String
  distRows : List DistRow
  reviewRows : List ReviewTag
  profileLinks : List SocialLinkTag
  statContainers : List (Option String)
  favBlocks : List (Option String)
  deriving DecidableEq, Repr

/-- `extract_basic_info`: about / location texts and the first
`.rightBox div` starting with `"Member since"`, prefix removed. -/
def extract_basic_info (page : ProfilePage) :
    Option String × Option String × Option String :=
  (page.aboutText.map pyStrip,
   page.locationText.map pyStrip,
   (page.rightBoxDivs.find? (fun s => "Member since".data.isPrefixOf s.data)).map
     (fun s => pyStrip (pyReplace s "Member since " "")))

/-- `get_user_profile(username)` given the fetch outcome of the user page.
A page without `.profileHeadLeft` raises HTTP 404 (re-raised as-is by
`except HTTPException: raise`); a transport failure or an uncaught
extraction `ValueError` reaches `except Exception` and surfaces as
HTTP 503. -/
def get_user_profile (fetched : Except String ProfilePage) (username : String) :
    Except (Nat × String) UserProfile :=
  match fetched with
  | .error e => .error (503, "Error accessing user profile: " ++ e)
  | .ok page =>
    if page.profileHead = false then
      .error (404, "User not found")
    else
      let (about_text, location_text, member_since) := extract_basic_info page
      match extract_rating_distribution page.distRows with
      | none => .error (503, "Error accessing user profile: e")
      | some rating_dist =>
        let reviews := (page.reviewRows.take 5).filterMap extract_review
        let socials := extract_social_links page.profileLinks
        match extract_stats page.statContainers with
        | none => .error (503, "Error accessing user profile: e")
        | some stats =>
          let favorite_albums := page.favBlocks.filterMap (·.map pyStrip)
          .ok { username, location := location_text, about := about_text,
                member_since, stats, rating_distribution := rating_dist,
                favorite_albums, recent_reviews := reviews,
                social_links := socials }

/-! ## `app/main.py` — the API handlers

Each handler is modelled as a function of the outcomes of its collaborator
calls, threading the process-wide `Metrics` value explicitly:

  * `cached` — the `get_cache` result: `none` when absent (or falsy, or any
    swallowed transport error inside `get_cache`), otherwise the outcome of
    reconstructing the pydantic model from the cached dict (a validation
    error is a non-HTTP exception).
  * fetch outcomes for the scraper calls, as above.
  * `elapsed` — the measured `time() - start_time` duration.

The `try`/`except` structure is mirrored exactly: an `HTTPException`
(either raised directly or propagating from the scraper layer) is re-raised
unchanged by `except HTTPException: raise` and does NOT touch the error
counter; any other exception reaches `except Exception`, which calls
`metrics.record_error()` and raises HTTP 503.  `set_cache` swallows its own
errors and has no observable effect on this state. -/

/-- The `/album/` handler `get_album`. -/
def get_album_handler (cached : Option (Except String Album))
    (searchFetched : Except String SearchPage)
    (fetchAlbum : String → Except String AlbumPage)
    (elapsed : ℚ) (m : Metrics) : Metrics × Except (Nat × String) Album :=
  match cached with
  | some validated =>
    let m1 := record_request m true
    match validated with
    | .ok album => (m1, .ok album)
    | .error e => (record_error m1, .error (503, e))
  | none =>
    let m1 := record_request m false
    match get_album_url searchFetched with
    | .error he => (m1, .error he)
    | .ok none => (m1, .error (404, "Album not found"))
    | .ok (some (url, artist, title)) =>
      match scrape_album (fetchAlbum url) artist title with
      | .error he => (m1, .error he)
      | .ok album_data =>
        match record_response_time m1 elapsed with
        | none => (record_error m1, .error (503, "division by zero"))
        | some m2 => (m2, .ok album_data)

/-- The `/album/similar/` handler `get_similar_albums_endpoint`;
`similarFetched` is the fetch outcome of the resolved URL's `similar/`
listing page. -/
def get_similar_handler (cached : Option (Except String (List Album)))
    (searchFetched : Except String SearchPage)
    (fetchAlbum : String → Except String AlbumPage)
    (similarFetched : Except String (List SearchBlock))
    (elapsed : ℚ) (m : Metrics) :
    Metrics × Except (Nat × String) (List Album) :=
  match cached with
  | some validated =>
    let m1 := record_request m true
    match validated with
    | .ok albums => (m1, .ok albums)
    | .error e => (record_error m1, .error (503, e))
  | none =>
    let m1 := record_request m false
    match get_album_url searchFetched with
    | .error he => (m1, .error he)
    | .ok none => (m1, .error (404, "Album not found"))
    | .ok (some _) =>
      match get_similar_albums fetchAlbum similarFetched with
      | .error he => (m1, .error he)
      | .ok similar_albums =>
        match record_response_time m1 elapsed with
        | none => (record_error m1, .error (503, "division by zero"))
        | some m2 => (m2, .ok similar_albums)

/-- The `/user/` handler `get_user`. -/
def get_user_handler (cached : Option (Except String UserProfile))
    (profileFetched : Except String ProfilePage) (username : String)
    (elapsed : ℚ) (m : Metrics) :
    Metrics × Except (Nat × String) UserProfile :=
  match cached with
  | some validated =>
    let m1 := record_request m true
    match validated with
    | .ok p => (m1, .ok p)
    | .error e => (record_error m1, .error (503, e))
  | none =>
    let m1 := record_request m false
    match get_user_profile profileFetched username with
    | .error he => (m1, .error he)
    | .ok user_profile =>
      match record_response_time m1 elapsed with
      | none => (record_error m1, .error (503, "division by zero"))
      | some m2 => (m2, .ok user_profile)

/-! ## Derived operations the properties are stated over -/

/-- The recursive acquisition one similar-albums loop iteration performs
once its block's link, artist and title have been read. -/
def blockScrape (fetchAlbum : String → Except String AlbumPage)
    (href a t : String) : Except (Nat × String) Album :=
  scrape_album (fetchAlbum (BASE_URL ++ href)) (pyStrip a) (pyStrip t)

/-- The documented metrics protocol of one timed acquisition:
`record_request(cache_hit)` immediately followed by
`record_response_time(duration)`. -/
def record_pair (m : Metrics) (hit : Bool) (d : ℚ) : Option Metrics :=
  record_response_time (record_request m hit) d

/-- Run the protocol over a list of `(cache_hit, duration)` observations. -/
def runPairs (m : Metrics) : List (Bool × ℚ) → Option Metrics
  | [] => some m
  | (hit, d) :: rest =>
    match record_pair m hit d with
    | none => none
    | some m1 => runPairs m1 rest

/-! ## Concrete fixtures used by witnesses and counterexamples -/

/-- A fetched user page lacking the `.profileHeadLeft` region. -/
def noUserPage : ProfilePage :=
  { profileHead := false, aboutText := none, locationText := none,
    rightBoxDivs := [], distRows := [], reviewRows := [], profileLinks := [],
    statContainers := [], favBlocks := [] }

/-- A fetched user page with the profile header but no stat containers. -/
def noStatsPage : ProfilePage :=
  { noUserPage with profileHead := true }

/-- A user page with four stat containers: `"1,234"`, a container without a
`.profileStat` element, `"7"`, `"0"`. -/
def fourStatsPage : ProfilePage :=
  { noStatsPage with statContainers := [some "1,234", none, some "7", some "0"] }

/-- The profile assembled from `fourStatsPage`. -/
def fourStatsProfile : UserProfile :=
  { username := "u",
    stats := [("ratings", 1234), ("reviews", 0), ("lists", 7), ("followers", 0)],
    favorite_albums := [], recent_reviews := [], social_links := [],
    rating_distribution := [] }

/-- A well-formed critic-review row. -/
def okCriticRow : CriticRow :=
  { authorLink := some "A", publicationLink := some "P",
    ratingText := some "80", reviewText := some "good" }

/-- A critic row whose `.publication a` element is missing: reading its
`.text` raises `AttributeError`. -/
def badCriticRow : CriticRow :=
  { okCriticRow with publicationLink := none }

/-- A well-formed user-review row. -/
def okUserRow : UserRow :=
  { userReviewName := some "U", rating := some "85",
    reviewText := some "nice", likes := some "3" }

/-- A user-review row whose `.userReviewName a` element is missing. -/
def badUserRow : UserRow :=
  { okUserRow with userReviewName := none }

/-- An album page that parses cleanly (no rows anywhere). -/
def emptyAlbumPage : AlbumPage :=
  { scoreElem := none, numReviewsText := none, trackRows := [],
    criticRows := [], userRows := [], buyButtons := none,
    mustHearButton := false }

/-- An album page whose critics region holds five review rows, the third
malformed. -/
def criticsPageOneBad : AlbumPage :=
  { emptyAlbumPage with
    criticRows := [okCriticRow, okCriticRow, badCriticRow, okCriticRow, okCriticRow] }

/-- An album page whose users region holds five review rows, the third
malformed. -/
def usersPageOneBad : AlbumPage :=
  { emptyAlbumPage with
    userRows := [okUserRow, okUserRow, badUserRow, okUserRow, okUserRow] }

/-- An album page with a malformed track row (no `.trackNumber` element). -/
def badTrackPage : AlbumPage :=
  { emptyAlbumPage with
    trackRows := [{ trackNumber := none, trackTitle := some "T",
                    length := none, trackRating := none,
                    featuredArtists := none }] }

/-- A fully linked teaser block for the similar-albums listing. -/
def simBlock (href : String) : SearchBlock :=
  { imageLink := some (some href), artistTitle := some "Artist",
    albumTitle := some "Title" }

/-- A similar-albums listing with four teaser blocks. -/
def simBlocks : List SearchBlock :=
  [simBlock "/album/1", simBlock "/album/2", simBlock "/album/3",
   simBlock "/album/4"]

/-- A fetcher under which block 3's canonical page is malformed and every
other page parses cleanly. -/
def simFetch : String → Except String AlbumPage := fun url =>
  if url = BASE_URL ++ "/album/3" then .ok badTrackPage else .ok emptyAlbumPage

/-- A two-entry cache at capacity, both entries unexpired at instant 0;
`"a"` is the least recently used. -/
def exampleCache : LRUCache Nat :=
  { entries := [("a", 1, 100), ("b", 2, 100)], max_size := 2, ttl := 10 }

/-- A one-entry cache whose entry expires at instant 10. -/
def expiringCache : LRUCache Nat :=
  { entries := [("x", 5, 10)], max_size := 5000, ttl := 3600 }

/-! ## Helper lemmas -/

lemma record_request_total (m : Metrics) (hit : Bool) :
    (record_request m hit).total_requests = m.total_requests + 1 := by
  cases hit <;> rfl

lemma record_request_errors (m : Metrics) (hit : Bool) :
    (record_request m hit).errors = m.errors := by
  cases hit <;> rfl

lemma record_request_avg (m : Metrics) (hit : Bool) :
    (record_request m hit).avg_response_time = m.avg_response_time := by
  cases hit <;> rfl

lemma record_response_time_some (m : Metrics) (d : ℚ)
    (h : m.total_requests ≠ 0) :
    record_response_time m d = some { m with avg_response_time :=
      (m.avg_response_time * ((m.total_requests : ℚ) - 1) + d)
        / (m.total_requests : ℚ) } := by
  simp [record_response_time, h]

lemma record_response_time_frame {m m' : Metrics} {d : ℚ}
    (h : record_response_time m d = some m') :
    m'.total_requests = m.total_requests ∧ m'.cache_hits = m.cache_hits
      ∧ m'.cache_misses = m.cache_misses ∧ m'.errors = m.errors := by
  by_cases h0 : m.total_requests = 0
  · simp [record_response_time, h0] at h
  · rw [record_response_time_some m d h0] at h
    cases h
    exact ⟨rfl, rfl, rfl, rfl⟩

lemma runPairs_spec (l : List (Bool × ℚ)) (m : Metrics) :
    ∃ m', runPairs m l = some m'
      ∧ m'.total_requests = m.total_requests + l.length
      ∧ m'.avg_response_time * (m'.total_requests : ℚ)
          = m.avg_response_time * (m.total_requests : ℚ) + (l.map (·.2)).sum := by
  induction l generalizing m with
  | nil => exact ⟨m, rfl, by simp, by simp⟩
  | cons hd rest ih =>
    obtain ⟨hit, d⟩ := hd
    have htot : (record_request m hit).total_requests = m.total_requests + 1 :=
      record_request_total m hit
    have hne0 : (record_request m hit).total_requests ≠ 0 := by omega
    have hstep := record_response_time_some (record_request m hit) d hne0
    obtain ⟨m', h1, h2, h3⟩ := ih
      { record_request m hit with avg_response_time :=
        ((record_request m hit).avg_response_time
            * (((record_request m hit).total_requests : ℚ) - 1) + d)
          / ((record_request m hit).total_requests : ℚ) }
    refine ⟨m', ?_, ?_, ?_⟩
    · simpa [runPairs, record_pair, hstep] using h1
    · rw [h2]
      show (record_request m hit).total_requests + rest.length = _
      rw [htot, List.length_cons]
      omega
    · rw [h3]
      show ((record_request m hit).avg_response_time
            * (((record_request m hit).total_requests : ℚ) - 1) + d)
          / ((record_request m hit).total_requests : ℚ)
          * ((record_request m hit).total_requests : ℚ)
          + (rest.map (·.2)).sum = _
      have hne : ((record_request m hit).total_requests : ℚ) ≠ 0 := by
        exact_mod_cast hne0
      rw [div_mul_cancel₀ _ hne, record_request_avg, htot, List.map_cons,
        List.sum_cons]
      push_cast
      ring

/-! ## Claim C10 -/

/-- Claim C10: `record_response_time` divides by the collector's current
`total_requests` with no guard — with `total_requests ≥ 1` the call is
well-defined and updates the mean by the incremental formula; with
`total_requests = 0` the division raises `ZeroDivisionError`. -/
theorem C10_division_guard (m : Metrics) (d : ℚ) :
    (m.total_requests = 0 → record_response_time m d = none)
    ∧ (1 ≤ m.total_requests →
        record_response_time m d = some { m with avg_response_time :=
          (m.avg_response_time * ((m.total_requests : ℚ) - 1) + d)
            / (m.total_requests : ℚ) }) := by
  constructor
  · intro h; simp [record_response_time, h]
  · intro h; exact record_response_time_some m d (by omega)

/-- Witness for C10 at concrete collectors. -/
theorem C10_division_guard_witness :
    record_response_time Metrics.init 5 = none
    ∧ record_response_time { Metrics.init with total_requests := 1 } 5
        = some { Metrics.init with total_requests := 1, avg_response_time := 5 } := by
  constructor
  · exact (C10_division_guard Metrics.init 5).1 rfl
  · rw [(C10_division_guard { Metrics.init with total_requests := 1 } 5).2 (by decide)]
    norm_num [Metrics.init, Metrics.mk.injEq]

/-! ## Claim C7 -/

/-- Claim C7: starting from a fresh (or freshly reset — `reset` installs the
same `Metrics()` value) collector, recording durations d1..dn in order, each
immediately preceded by exactly one `record_request`, leaves
`avg_response_time` equal to the arithmetic mean (d1+...+dn)/n. -/
theorem C7_running_mean (l : List (Bool × ℚ)) (hne : l ≠ []) :
    (∃ m', runPairs Metrics.init l = some m'
      ∧ m'.total_requests = l.length
      ∧ m'.avg_response_time = (l.map (·.2)).sum / (l.length : ℚ))
    ∧ (∀ h : CollectorHeap, (reset_h h).deref (get_metrics (reset_h h)) = Metrics.init) := by
  constructor
  · obtain ⟨m', h1, h2, h3⟩ := runPairs_spec l Metrics.init
    have h2' : m'.total_requests = l.length := by simpa [Metrics.init] using h2
    have hlen : ((l.length : ℚ)) ≠ 0 := by
      have := List.length_pos.mpr hne
      positivity
    refine ⟨m', h1, h2', ?_⟩
    have h3' : m'.avg_response_time * (l.length : ℚ) = (l.map (·.2)).sum := by
      simpa [Metrics.init, h2'] using h3
    rw [eq_div_iff hlen]
    exact h3'
  · intro h
    simp [reset_h, get_metrics, CollectorHeap.deref]

/-- Witness for C7: durations 2 and 4 yield mean 3. -/
theorem C7_running_mean_witness :
    (∃ m', runPairs Metrics.init [(false, 2), (true, 4)] = some m'
      ∧ m'.avg_response_time = 3)
    ∧ (reset_h CollectorHeap.init).deref
        (get_metrics (reset_h CollectorHeap.init)) = Metrics.init := by
  obtain ⟨⟨m', h1, _, h3⟩, h4⟩ :=
    C7_running_mean [(false, 2), (true, 4)] (by simp)
  refine ⟨⟨m', h1, ?_⟩, h4 CollectorHeap.init⟩
  rw [h3]; norm_num

/-! ## Claim C3 -/

/-- Claim C3 counterexample: `get_metrics` does NOT return a value copy.
Take the snapshot of a fresh collector (`total_requests = 0`), then perform
one `record_request` mutation: the previously returned snapshot now reads
`total_requests = 1` — its fields did not stay unchanged. -/
theorem C3_counterexample :
    (CollectorHeap.init.deref (get_metrics CollectorHeap.init)).total_requests = 0
    ∧ ((record_request_h CollectorHeap.init false).deref
        (get_metrics CollectorHeap.init)).total_requests = 1 :=
  ⟨rfl, rfl⟩

/-- Claim C3 amended: `get_metrics` returns the live reference
(`return self._metrics`), so `record_request` / `record_error` /
`record_response_time` mutations performed after a snapshot are visible
through it; only `reset` detaches — it rebinds the collector to a freshly
allocated object, leaving the earlier snapshot's object unchanged both by
the reset itself and by mutations performed after it. -/
theorem C3_snapshot_is_live_reference (h : CollectorHeap) (r : Nat)
    (hr : r = get_metrics h) (hv : h.cur < h.next) (hit : Bool) (d : ℚ) :
    ((record_request_h h hit).deref r = record_request (h.deref r) hit)
    ∧ ((record_error_h h).deref r = record_error (h.deref r))
    ∧ (∀ h', record_response_time_h h d = some h' →
        record_response_time (h.deref r) d = some (h'.deref r))
    ∧ ((reset_h h).deref r = h.deref r)
    ∧ (∀ hit', (record_request_h (reset_h h) hit').deref r = h.deref r) := by
  subst hr
  have hner : h.cur ≠ h.next := Nat.ne_of_lt hv
  refine ⟨?_, ?_, ?_, ?_, ?_⟩
  · simp [record_request_h, CollectorHeap.mutate, CollectorHeap.deref,
      get_metrics]
  · simp [record_error_h, CollectorHeap.mutate, CollectorHeap.deref,
      get_metrics]
  · intro h' hh'
    unfold record_response_time_h at hh'
    cases hm : record_response_time (h.mem h.cur) d with
    | none => rw [hm] at hh'; cases hh'
    | some m2 =>
      rw [hm] at hh'
      cases hh'
      simp [CollectorHeap.deref, get_metrics]
      simpa [CollectorHeap.deref, get_metrics] using hm
  · simp [reset_h, CollectorHeap.deref, get_metrics, hner]
  · intro hit'
    simp [reset_h, record_request_h, CollectorHeap.mutate, CollectorHeap.deref,
      get_metrics, hner]

/-- Witness for the amended C3 at the freshly constructed collector. -/
theorem C3_snapshot_is_live_reference_witness :
    (record_request_h CollectorHeap.init false).deref 0
      = record_request (CollectorHeap.init.deref 0) false
    ∧ (reset_h CollectorHeap.init).deref 0 = CollectorHeap.init.deref 0 := by
  have h := C3_snapshot_is_live_reference CollectorHeap.init 0 rfl
    (by decide) false 1
  exact ⟨h.1, h.2.2.2.1⟩

/-! ## Claim C9 -/

/-- Claim C9: a `get_user` call that misses the cache and fetches a page
lacking the profile-header region fails with HTTP 404 (NotFound), bumps the
total-request and cache-miss counters exactly once, and leaves the error
counter (and the cache-hit counter) unchanged. -/
theorem C9_user_not_found (page : ProfilePage)
    (hpage : page.profileHead = false) (username : String) (elapsed : ℚ)
    (m : Metrics) :
    (get_user_handler none (.ok page) username elapsed m).2
      = .error (404, "User not found")
    ∧ ((get_user_handler none (.ok page) username elapsed m).1).total_requests
        = m.total_requests + 1
    ∧ ((get_user_handler none (.ok page) username elapsed m).1).cache_misses
        = m.cache_misses + 1
    ∧ ((get_user_handler none (.ok page) username elapsed m).1).cache_hits
        = m.cache_hits
    ∧ ((get_user_handler none (.ok page) username elapsed m).1).errors
        = m.errors := by
  simp [get_user_handler, get_user_profile, hpage, record_request]

/-- Witness for C9 on a concrete headerless page and a fresh collector. -/
theorem C9_user_not_found_witness :
    (get_user_handler none (.ok noUserPage) "no_such_user" 1 Metrics.init).2
      = .error (404, "User not found")
    ∧ ((get_user_handler none (.ok noUserPage) "no_such_user" 1 Metrics.init).1).total_requests = 1
    ∧ ((get_user_handler none (.ok noUserPage) "no_such_user" 1 Metrics.init).1).errors = 0 := by
  have h := C9_user_not_found noUserPage rfl "no_such_user" 1 Metrics.init
  exact ⟨h.1, h.2.1, h.2.2.2.2⟩

/-! ## Claim C1 -/

/-- Claim C1 counterexample: a `get_album` call that misses the cache and
resolves to no search result fails with `NotFound` (HTTP 404), yet the
metrics error counter is NOT incremented — it stays `0` instead of the
claimed exactly-once increment.  (`except HTTPException: raise` re-raises
before the `record_error` branch is reached.) -/
theorem C1_counterexample :
    (get_album_handler none (.ok { albumBlock := none })
        (fun _ => .error "transport") 1 Metrics.init).2
      = .error (404, "Album not found")
    ∧ ((get_album_handler none (.ok { albumBlock := none })
        (fun _ => .error "transport") 1 Metrics.init).1).errors = 0 :=
  ⟨rfl, rfl⟩

/-- Claim C1 amended: top-level acquisition calls that miss the cache never
increment the error counter, whatever the failure — `NotFound`,
`UpstreamUnavailable`/`TransportError` and `ExtractionFailed` all surface as
`HTTPException`s, which `except HTTPException: raise` re-raises past the
`record_error` branch.  `record_error` fires (exactly once) only for a
non-HTTP exception, e.g. failing to rebuild the pydantic model from a
cached value on a cache hit. -/
theorem C1_error_counter_untouched :
    (∀ (sf : Except String SearchPage)
        (fa : String → Except String AlbumPage) (e : ℚ) (m : Metrics),
      ((get_album_handler none sf fa e m).1).errors = m.errors)
    ∧ (∀ (sf : Except String SearchPage)
        (fa : String → Except String AlbumPage)
        (simf : Except String (List SearchBlock)) (e : ℚ) (m : Metrics),
      ((get_similar_handler none sf fa simf e m).1).errors = m.errors)
    ∧ (∀ (pf : Except String ProfilePage) (u : String) (e : ℚ) (m : Metrics),
      ((get_user_handler none pf u e m).1).errors = m.errors)
    ∧ (∀ (err : String) (sf : Except String SearchPage)
        (fa : String → Except String AlbumPage) (e : ℚ) (m : Metrics),
      ((get_album_handler (some (.error err)) sf fa e m).1).errors
        = m.errors + 1) := by
  refine ⟨?_, ?_, ?_, ?_⟩
  · intro sf fa e m
    have hrrt := record_response_time_some (record_request m false) e
      (by rw [record_request_total]; omega)
    cases hget : get_album_url sf with
    | error he => simp [get_album_handler, hget, record_request_errors]
    | ok o =>
      cases o with
      | none => simp [get_album_handler, hget, record_request_errors]
      | some triple =>
        obtain ⟨url, artist, title⟩ := triple
        cases hscrape : scrape_album (fa url) artist title with
        | error he =>
          simp [get_album_handler, hget, hscrape, record_request_errors]
        | ok album =>
          simp [get_album_handler, hget, hscrape, hrrt, record_request_errors]
  · intro sf fa simf e m
    have hrrt := record_response_time_some (record_request m false) e
      (by rw [record_request_total]; omega)
    cases hget : get_album_url sf with
    | error he => simp [get_similar_handler, hget, record_request_errors]
    | ok o =>
      cases o with
      | none => simp [get_similar_handler, hget, record_request_errors]
      | some triple =>
        obtain ⟨url, artist, title⟩ := triple
        cases hsim : get_similar_albums fa simf with
        | error he =>
          simp [get_similar_handler, hget, hsim, record_request_errors]
        | ok albums =>
          simp [get_similar_handler, hget, hsim, hrrt, record_request_errors]
  · intro pf u e m
    have hrrt := record_response_time_some (record_request m false) e
      (by rw [record_request_total]; omega)
    cases hprof : get_user_profile pf u with
    | error he => simp [get_user_handler, hprof, record_request_errors]
    | ok p => simp [get_user_handler, hprof, hrrt, record_request_errors]
  · intro err sf fa e m
    simp [get_album_handler, record_error, record_request_errors]

/-! ## Claim C2 -/

lemma parse_tracks_escalates {r : TrackRow} (hr : trackOfRow r = none) :
    ∀ (rows₁ rows₂ : List TrackRow),
      parse_tracks (rows₁ ++ r :: rows₂) = none := by
  intro rows₁ rows₂
  induction rows₁ with
  | nil => simp [parse_tracks, hr]
  | cons hd tl ih =>
    cases h : trackOfRow hd <;> simp [parse_tracks, h, ih]

lemma parse_critic_reviews_escalates {r : CriticRow}
    (hr : criticOfRow r = none) :
    ∀ (rows₁ rows₂ : List CriticRow),
      parse_critic_reviews (rows₁ ++ r :: rows₂) = none := by
  intro rows₁ rows₂
  induction rows₁ with
  | nil => simp [parse_critic_reviews, hr]
  | cons hd tl ih =>
    cases h : criticOfRow hd <;> simp [parse_critic_reviews, h, ih]

/-- Claim C2 counterexample: an album page whose critics region holds five
review rows, exactly one of them malformed (no `.publication a` element),
the other four individually well-formed — the whole acquisition fails with
HTTP 503 instead of returning the four well-formed reviews. -/
theorem C2_counterexample :
    (criticsPageOneBad.criticRows.filterMap criticOfRow).length = 4
    ∧ (criticsPageOneBad.criticRows.filter
        (fun r => (criticOfRow r).isNone)).length = 1
    ∧ scrape_album (.ok criticsPageOneBad) "Artist" "Title"
        = .error (503, "Error accessing album site: e") := by
  refine ⟨by decide, by decide, ?_⟩
  exact (by rfl :
    scrape_album (.ok criticsPageOneBad) "Artist" "Title"
      = .error (503, "Error accessing album site: e"))

/-- Claim C2 amended: the per-item containment boundary exists only in the
user-review region — `parse_user_reviews` skips a malformed row and keeps
the remaining well-formed ones (one malformed block among five well-formed
yields exactly 4 reviews with no top-level failure, provided the track and
critic regions parse).  In the track and critic-review regions there is no
per-item handler: one malformed row fails the whole acquisition with
HTTP 503 (`ExtractionFailed`). -/
theorem C2_containment_only_user_region :
    (∀ (rows₁ rows₂ : List UserRow) (r : UserRow), userReviewOfRow r = none →
      parse_user_reviews (rows₁ ++ r :: rows₂)
        = parse_user_reviews (rows₁ ++ rows₂))
    ∧ (∀ (page : AlbumPage) (artist title : String) tracks critics,
        parse_tracks page.trackRows = some tracks →
        parse_critic_reviews page.criticRows = some critics →
        ∃ a, scrape_album (.ok page) artist title = .ok a
          ∧ a.popular_reviews = parse_user_reviews page.userRows
          ∧ a.tracks = tracks ∧ a.critic_reviews = critics)
    ∧ (∀ (page : AlbumPage) (artist title : String) rows₁ r rows₂,
        page.criticRows = rows₁ ++ r :: rows₂ → criticOfRow r = none →
        scrape_album (.ok page) artist title
          = .error (503, "Error accessing album site: e"))
    ∧ (∀ (page : AlbumPage) (artist title : String) rows₁ r rows₂,
        page.trackRows = rows₁ ++ r :: rows₂ → trackOfRow r = none →
        scrape_album (.ok page) artist title
          = .error (503, "Error accessing album site: e")) := by
  refine ⟨?_, ?_, ?_, ?_⟩
  · intro rows₁ rows₂ r hr
    simp [parse_user_reviews, List.filterMap_append, List.filterMap_cons, hr]
  · intro page artist title tracks critics ht hc
    cases hscr : scrape_album (.ok page) artist title with
    | error he => simp [scrape_album, ht, hc] at hscr
    | ok a =>
      simp only [scrape_album, ht, hc, Except.ok.injEq] at hscr
      subst hscr
      exact ⟨_, rfl, rfl, rfl, rfl⟩
  · intro page artist title rows₁ r rows₂ hrows hr
    have hc : parse_critic_reviews page.criticRows = none := by
      rw [hrows]; exact parse_critic_reviews_escalates hr rows₁ rows₂
    cases hpt : parse_tracks page.trackRows <;> simp [scrape_album, hpt, hc]
  · intro page artist title rows₁ r rows₂ hrows hr
    have ht : parse_tracks page.trackRows = none := by
      rw [hrows]; exact parse_tracks_escalates hr rows₁ rows₂
    simp [scrape_album, ht]

/-- Witness for the amended C2 on the concrete five-row fixtures. -/
theorem C2_containment_only_user_region_witness :
    parse_user_reviews [okUserRow, okUserRow, badUserRow, okUserRow, okUserRow]
      = parse_user_reviews [okUserRow, okUserRow, okUserRow, okUserRow]
    ∧ (scrape_album (.ok usersPageOneBad) "Artist" "Title").toOption.map
        (fun a => a.popular_reviews.length) = some 4
    ∧ scrape_album (.ok criticsPageOneBad) "Artist" "Title"
        = .error (503, "Error accessing album site: e")
    ∧ scrape_album (.ok badTrackPage) "Artist" "Title"
        = .error (503, "Error accessing album site: e") := by
  obtain ⟨h1, h2, h3, h4⟩ := C2_containment_only_user_region
  refine ⟨?_, ?_, ?_, ?_⟩
  · exact h1 [okUserRow, okUserRow] [okUserRow, okUserRow] badUserRow rfl
  · obtain ⟨a, ha, hpop, -, -⟩ :=
      h2 usersPageOneBad "Artist" "Title" [] [] rfl rfl
    rw [ha]
    show Option.map (fun a => a.popular_reviews.length) (some a) = some 4
    rw [Option.map_some', hpop]
    decide
  · exact h3 criticsPageOneBad "Artist" "Title" [okCriticRow, okCriticRow]
      badCriticRow [okCriticRow, okCriticRow] rfl rfl
  · exact h4 badTrackPage "Artist" "Title" []
      { trackNumber := none, trackTitle := some "T", length := none,
        trackRating := none, featuredArtists := none } [] rfl rfl

/-! ## Claim C4 -/

/-- Claim C4 counterexample: a successfully fetched profile page (header
present) whose markup yields no stat container assembles a `UserProfile`
whose stats mapping is EMPTY — it does not contain the four keys with 0
substituted. -/
theorem C4_counterexample :
    get_user_profile (.ok noStatsPage) "user"
      = .ok { username := "user", stats := [], favorite_albums := [],
              recent_reviews := [], social_links := [],
              rating_distribution := [] } := rfl

/-- Claim C4 amended: when the fetched profile page yields at least four
stat containers (and extraction completes), the assembled stats mapping
contains exactly the four keys ratings, reviews, lists, followers, in that
order, each mapped to the integer parsed from its container's stat element
with 0 substituted for a container whose stat element is absent; with fewer
than four containers the stats mapping is empty — no keys, no 0-filling. -/
theorem C4_stats_shape :
    (∀ (c0 c1 c2 c3 : Option String) (rest : List (Option String))
        (v0 v1 v2 v3 : Int),
      statVal c0 = some v0 → statVal c1 = some v1 → statVal c2 = some v2 →
      statVal c3 = some v3 →
      extract_stats (c0 :: c1 :: c2 :: c3 :: rest)
        = some [("ratings", v0), ("reviews", v1), ("lists", v2),
                ("followers", v3)])
    ∧ (∀ cs : List (Option String), cs.length < 4 → extract_stats cs = some [])
    ∧ (∀ (page : ProfilePage) (username : String) (p : UserProfile),
        get_user_profile (.ok page) username = .ok p →
        extract_stats page.statContainers = some p.stats) := by
  refine ⟨?_, ?_, ?_⟩
  · intro c0 c1 c2 c3 rest v0 v1 v2 v3 h0 h1 h2 h3
    have hlen : 4 ≤ (c0 :: c1 :: c2 :: c3 :: rest).length := by
      simp [List.length_cons]
    simp [extract_stats, hlen, h0, h1, h2, h3]
  · intro cs h
    unfold extract_stats
    rw [if_neg (by omega)]
  · intro page username p hp
    simp only [get_user_profile, extract_basic_info] at hp
    by_cases hhead : page.profileHead = false
    · simp [hhead] at hp
    · rw [if_neg hhead] at hp
      cases hdist : extract_rating_distribution page.distRows with
      | none => rw [hdist] at hp; simp at hp
      | some dist =>
        rw [hdist] at hp
        cases hstats : extract_stats page.statContainers with
        | none => rw [hstats] at hp; simp at hp
        | some stats =>
          rw [hstats] at hp
          simp only [Except.ok.injEq] at hp
          subst hp
          rfl

/-- Witness for the amended C4 on the four-container fixture. -/
theorem C4_stats_shape_witness :
    extract_stats [some "1,234", none, some "7", some "0"]
      = some [("ratings", 1234), ("reviews", 0), ("lists", 7),
              ("followers", 0)]
    ∧ extract_stats [some "5"] = some []
    ∧ get_user_profile (.ok fourStatsPage) "u" = .ok fourStatsProfile
    ∧ extract_stats fourStatsPage.statContainers
        = some fourStatsProfile.stats := by
  obtain ⟨ha, hb, hc⟩ := C4_stats_shape
  have hup : get_user_profile (.ok fourStatsPage) "u" = .ok fourStatsProfile :=
    rfl
  exact ⟨ha (some "1,234") none (some "7") (some "0") [] 1234 0 7 0
          (by decide) rfl (by decide) (by decide),
         hb [some "5"] (by decide), hup,
         hc fourStatsPage "u" fourStatsProfile hup⟩

/-! ## Claim C8 -/

lemma filterMap_length_add_countP {α β : Type} (f : α → Option β)
    (l : List α) :
    (l.filterMap f).length + l.countP (fun x => (f x).isNone) = l.length := by
  induction l with
  | nil => simp
  | cons hd tl ih =>
    cases h : f hd <;> simp [List.filterMap_cons, h, List.countP_cons] <;> omega

/-- Claim C8: over a similar-albums listing whose k discovered teaser blocks
are all fully linked, the fan-out call succeeds overall and returns exactly
the successfully acquired albums, in discovery order; its length is
k minus the number m of blocks whose per-item recursive acquisition fails
(a failing block is skipped by the per-item `except`). -/
theorem C8_similar_partial_success
    (fetchAlbum : String → Except String AlbumPage)
    (blocks : List SearchBlock)
    (hlinked : ∀ b ∈ blocks, ∃ href a t, b.imageLink = some (some href)
      ∧ b.artistTitle = some a ∧ b.albumTitle = some t) :
    ∃ l, get_similar_albums fetchAlbum (.ok blocks) = .ok l
      ∧ l = blocks.filterMap (acquireBlock fetchAlbum)
      ∧ l.length + (blocks.countP fun b => (acquireBlock fetchAlbum b).isNone)
          = blocks.length
      ∧ ∀ b ∈ blocks, ∃ href a t, b.imageLink = some (some href)
          ∧ b.artistTitle = some a ∧ b.albumTitle = some t
          ∧ acquireBlock fetchAlbum b
            = (blockScrape fetchAlbum href a t).toOption := by
  refine ⟨_, rfl, rfl, filterMap_length_add_countP _ _, ?_⟩
  intro b hb
  obtain ⟨href, a, t, h1, h2, h3⟩ := hlinked b hb
  refine ⟨href, a, t, h1, h2, h3, ?_⟩
  cases hs : scrape_album (fetchAlbum (BASE_URL ++ href)) (pyStrip a)
      (pyStrip t) <;>
    simp [acquireBlock, h1, h2, h3, blockScrape, Except.toOption, hs]

/-- Witness for C8: four teaser blocks, block 3's canonical page malformed —
the call succeeds with a 3-element list, block 3 skipped. -/
theorem C8_similar_partial_success_witness :
    get_similar_albums simFetch (.ok simBlocks)
      = .ok (simBlocks.filterMap (acquireBlock simFetch))
    ∧ (simBlocks.filterMap (acquireBlock simFetch)).length = 3
    ∧ (acquireBlock simFetch (simBlock "/album/3")).isNone = true := by
  obtain ⟨l, h1, h2, h3, h4⟩ := C8_similar_partial_success simFetch simBlocks
    (by
      intro b hb
      simp only [simBlocks, List.mem_cons, List.not_mem_nil, or_false] at hb
      rcases hb with rfl | rfl | rfl | rfl <;> exact ⟨_, _, _, rfl, rfl, rfl⟩)
  exact ⟨h2 ▸ h1, by decide, by decide⟩

/-! ## Cache helper lemmas -/

lemma lookup_eq_none {c : LRUCache V} {k : String} (h : k ∉ c.keys) :
    c.lookup k = none := by
  unfold LRUCache.lookup
  rw [List.find?_eq_none.mpr]
  · rfl
  · intro e he
    simp only [decide_eq_true_eq]
    intro heq
    exact h (heq ▸ List.mem_map_of_mem (·.1) he)

lemma mem_keys_of_lookup_some {c : LRUCache V} {k : String} {p : V × Nat}
    (h : c.lookup k = some p) : k ∈ c.keys := by
  unfold LRUCache.lookup at h
  cases hf : c.entries.find? (·.1 = k) with
  | none => rw [hf] at h; cases h
  | some e =>
    have hek : e.1 = k := by
      have := List.find?_some hf
      simpa using this
    exact hek ▸ List.mem_map_of_mem (·.1) (List.mem_of_find?_eq_some hf)

lemma find?_key_self {l : List (String × V × Nat)} {e : String × V × Nat}
    (hnd : (l.map (·.1)).Nodup) (he : e ∈ l) :
    l.find? (·.1 = e.1) = some e := by
  induction l with
  | nil => cases he
  | cons hd tl ih =>
    rw [List.map_cons, List.nodup_cons] at hnd
    rcases List.mem_cons.mp he with rfl | htl
    · simp [List.find?]
    · have hne : ¬ (hd.1 = e.1) := fun hcontra =>
        hnd.1 (hcontra ▸ List.mem_map_of_mem (·.1) htl)
      rw [List.find?_cons_of_neg _ (by simpa using hne)]
      exact ih hnd.2 htl

lemma keys_remove_self (c : LRUCache V) (k : String) :
    k ∉ (c.remove k).keys := by
  simp only [LRUCache.remove, LRUCache.keys, List.mem_map]
  rintro ⟨e, he, heq⟩
  rw [List.mem_filter] at he
  have := he.2
  simp only [decide_eq_true_eq] at this
  exact this heq

lemma get_absent {c : LRUCache V} {k : String} (h : k ∉ c.keys) (t : Nat) :
    c.get t k = (none, c) := by
  simp [LRUCache.get, lookup_eq_none h]

lemma get_preserves_absent {c : LRUCache V} {k : String} (h : k ∉ c.keys)
    (k₂ : String) (t : Nat) : k ∉ ((c.get t k₂).2).keys := by
  unfold LRUCache.get
  cases hl : c.lookup k₂ with
  | none => simpa using h
  | some p =>
    obtain ⟨v, exp⟩ := p
    by_cases hexp : exp ≤ t
    · simp only [hexp, if_true]
      intro hmem
      simp only [LRUCache.keys, List.mem_map] at hmem
      obtain ⟨e, he, heq⟩ := hmem
      have he' : e ∈ c.entries := by
        have hre : (c.remove k₂).entries
            = c.entries.filter (fun e => ¬ e.1 = k₂) := rfl
        rw [hre, List.mem_filter] at he
        exact he.1
      exact h (heq ▸ List.mem_map_of_mem (·.1) he')
    · simp only [hexp, if_false]
      intro hmem
      simp only [LRUCache.keys, List.map_append, List.mem_append] at hmem
      rcases hmem with hm1 | hm2
      · rw [List.mem_map] at hm1
        obtain ⟨e, he, heq⟩ := hm1
        have he' : e ∈ c.entries := (List.mem_filter.mp he).1
        exact h (heq ▸ List.mem_map_of_mem (·.1) he')
      · simp only [List.map_cons, List.map_nil, List.mem_singleton] at hm2
        exact h (by rw [hm2]; exact mem_keys_of_lookup_some hl)

lemma applyGets_preserves_absent {c : LRUCache V} {k : String}
    (h : k ∉ c.keys) : ∀ gs : List (String × Nat),
    k ∉ (c.applyGets gs).keys := by
  intro gs
  induction gs generalizing c with
  | nil => exact h
  | cons hd gs ih =>
    obtain ⟨k₂, t⟩ := hd
    exact ih (get_preserves_absent h k₂ t)

/-! ## Claim C5 -/

/-- Claim C5: on a cache holding exactly its capacity of unexpired entries
(distinct keys), a `set` of an absent key evicts exactly the
least-recently-used entry (the head of the recency order) and no other: the
result keeps the remaining entries in order, appends the new binding as most
recently used, and every surviving entry is still retrievable by `get`. -/
theorem C5_lru_eviction (c : LRUCache V) (now : Nat) (k : String) (v : V)
    (hnodup : c.keys.Nodup)
    (hfull : c.entries.length = c.max_size)
    (hpos : 0 < c.max_size)
    (hnew : k ∉ c.keys)
    (hfresh : ∀ e ∈ c.entries, now < e.2.2) :
    ∃ ev rest, c.entries = ev :: rest
      ∧ c.set now k v
          = some { c with entries := rest ++ [(k, v, now + c.ttl)] }
      ∧ ∀ e ∈ rest,
          (({ c with entries := rest ++ [(k, v, now + c.ttl)] } : LRUCache V).get
            now e.1).1 = some e.2.1 := by
  obtain ⟨ev, rest, hE⟩ : ∃ ev rest, c.entries = ev :: rest := by
    cases hE : c.entries with
    | nil => rw [hE] at hfull; simp at hfull; omega
    | cons a l => exact ⟨a, l, rfl⟩
  refine ⟨ev, rest, hE, ?_, ?_⟩
  · unfold LRUCache.set
    rw [lookup_eq_none hnew]
    simp only [Option.isSome_none, Bool.false_eq_true, if_false]
    rw [if_pos (le_of_eq hfull.symm), hE]
  · rintro ⟨ek, evv, eexp⟩ he
    have hndrest : (rest.map (·.1)).Nodup := by
      have := hnodup
      rw [LRUCache.keys, hE, List.map_cons, List.nodup_cons] at this
      exact this.2
    have hkne : ek ≠ k := by
      intro hcontra
      apply hnew
      rw [LRUCache.keys, hE]
      exact hcontra ▸ List.mem_cons_of_mem _ (List.mem_map_of_mem (·.1) he)
    have hfind : (rest ++ [(k, v, now + c.ttl)]).find? (·.1 = ek) = some (ek, evv, eexp) := by
      rw [List.find?_append]
      rw [find?_key_self hndrest he]
      rfl
    have hfreshe : now < eexp :=
      hfresh (ek, evv, eexp) (by rw [hE]; exact List.mem_cons_of_mem _ he)
    simp [LRUCache.get, LRUCache.lookup, hfind, Nat.not_le.mpr hfreshe]

/-- Witness for C5: a capacity-2 cache holding `"a"` (LRU) and `"b"`;
setting `"c"` evicts exactly `"a"`, and `"b"` stays retrievable. -/
theorem C5_lru_eviction_witness :
    exampleCache.set 0 "c" 3
      = some { exampleCache with entries := [("b", 2, 100), ("c", 3, 10)] }
    ∧ (({ exampleCache with entries := [("b", 2, 100), ("c", 3, 10)] } :
        LRUCache Nat).get 0 "b").1 = some 2 := by
  obtain ⟨ev, rest, hE, hset, hret⟩ :=
    C5_lru_eviction exampleCache 0 "c" 3 (by decide) (by decide) (by decide)
      (by decide) (by decide)
  have hev : ev = ("a", 1, 100) := by
    have : exampleCache.entries = [("a", 1, 100), ("b", 2, 100)] := rfl
    rw [this] at hE
    exact (List.cons.injEq _ _ _ _ ▸ hE.symm).1
  have hrest : rest = [("b", 2, 100)] := by
    have : exampleCache.entries = [("a", 1, 100), ("b", 2, 100)] := rfl
    rw [this] at hE
    exact (List.cons.injEq _ _ _ _ ▸ hE.symm).2
  subst hev hrest
  exact ⟨hset, hret ("b", 2, 100) (by decide)⟩

/-! ## Claim C6 -/

/-- Claim C6: `get` on a key whose TTL has elapsed returns absent and
actually removes the entry; every subsequent `get` of that key — across any
further sequence of `get` operations, with no intervening `set` — still
returns absent. -/
theorem C6_expired_get_removes (c : LRUCache V) (now : Nat) (k : String)
    (v : V) (exp : Nat)
    (hlk : c.lookup k = some (v, exp)) (hexp : exp ≤ now) :
    (c.get now k).1 = none
    ∧ k ∉ ((c.get now k).2).keys
    ∧ ∀ (gs : List (String × Nat)) (now' : Nat),
        ((((c.get now k).2).applyGets gs).get now' k).1 = none := by
  have hget : c.get now k = (none, c.remove k) := by
    simp [LRUCache.get, hlk, hexp]
  have habs : k ∉ (c.remove k).keys := keys_remove_self c k
  refine ⟨by rw [hget], by rw [hget]; exact habs, ?_⟩
  intro gs now'
  rw [hget]
  have h2 := applyGets_preserves_absent habs gs
  rw [get_absent h2 now']

/-- Witness for C6: the entry `"x"` expires at instant 10; a `get` at 10
removes it and later `get`s (also after further `get` traffic) stay absent. -/
theorem C6_expired_get_removes_witness :
    (expiringCache.get 10 "x").1 = none
    ∧ "x" ∉ ((expiringCache.get 10 "x").2).keys
    ∧ ((((expiringCache.get 10 "x").2).applyGets
        [("x", 11), ("y", 12)]).get 13 "x").1 = none := by
  obtain ⟨h1, h2, h3⟩ :=
    C6_expired_get_removes expiringCache 10 "x" 5 10 (by decide) (by decide)
  exact ⟨h1, h2, h3 [("x", 11), ("y", 12)] 13⟩

end AOTY
